import Mathlib

/-!
Verification of the NextRide GTFS backend (`backend/gtfs_db.py`,
`backend/gtfs_parser.py`, `backend/app.py`) against its natural-language
specification.

The embedding models Python strings as Lean `String` (with character-list
helpers mirroring `str.lower`, `str.strip`, `str.startswith`, the `in`
substring test and string comparison, all kernel-computable), Python ints as
`ℤ`/`ℕ`, Python float *values* carried through CSV parsing as `ℚ` (every such
value is an exact decimal), and the geometric floating-point computations of
the haversine path as `ℝ`.  Fallible Python operations (`float(...)`,
`int(...)`, division, HTTP download) are modelled with `Option`/`Except`.
Python's stable `list.sort`, and SQLite `ORDER BY`, are modelled by a stable
insertion sort over a boolean comparison.
-/

set_option maxHeartbeats 1000000

namespace NextRide

/-- ASCII lower-casing of one character, as done by both SQLite `LOWER` and
(for the ASCII range relevant here) Python `str.lower`. -/
def lowerChar (c : Char) : Char :=
  if 'A' ≤ c ∧ c ≤ 'Z' then Char.ofNat (c.toNat + 32) else c

/-- Python `s.lower()` / SQLite `LOWER(s)` (ASCII). -/
def pyLower (s : String) : String := String.mk (s.data.map lowerChar)

/-- Python whitespace for `str.strip()`. -/
def isSpaceChar (c : Char) : Bool :=
  c = ' ' || c = '\t' || c = '\n' || c = '\r' || c = '\x0b' || c = '\x0c'

/-- Python `s.strip()`. -/
def pyStrip (s : String) : String :=
  String.mk (((s.data.dropWhile isSpaceChar).reverse.dropWhile isSpaceChar).reverse)

/-- `leadsWith hay needle` is true when `needle` occurs at the start of
`hay`; character-level core of Python `str.startswith`. -/
def leadsWith : List Char → List Char → Bool
  | _, [] => true
  | [], _ :: _ => false
  | a :: as, b :: bs => a = b && leadsWith as bs

/-- `hasSub hay needle`: contiguous-substring occurrence, the semantics of
Python `needle in hay`. -/
def hasSub : List Char → List Char → Bool
  | [], needle => needle.isEmpty
  | a :: t, needle => leadsWith (a :: t) needle || hasSub t needle

/-- Python `q in s` (substring test) on strings. -/
def containsPy (s q : String) : Bool := hasSub s.data q.data

/-- Python `s.startswith(q)`. -/
def startsWithPy (s q : String) : Bool := leadsWith s.data q.data

/-- ASCII-case-insensitive prefix test: `leadsWithCI hay needle` is true
when `needle` matches at the start of `hay`, characters compared through
`lowerChar` (the comparison SQLite `LIKE` uses for ordinary pattern
characters). -/
def leadsWithCI : List Char → List Char → Bool
  | _, [] => true
  | [], _ :: _ => false
  | a :: as, b :: bs => (lowerChar b = lowerChar a) && leadsWithCI as bs

/-- ASCII-case-insensitive contiguous-substring occurrence. -/
def hasSubCI : List Char → List Char → Bool
  | [], needle => needle.isEmpty
  | a :: t, needle => leadsWithCI (a :: t) needle || hasSubCI t needle

/-- SQLite `LIKE` pattern matching (no ESCAPE clause): `%` matches any
character sequence including the empty one, `_` matches exactly one
character, and every other pattern character matches one text character
ASCII-case-insensitively. -/
def likeMatch : List Char → List Char → Bool
  | [], t => t.isEmpty
  | p :: ps, t =>
    if p = '%' then t.tails.any (fun s => likeMatch ps s)
    else if p = '_' then
      match t with
      | [] => false
      | _ :: ts => likeMatch ps ts
    else
      match t with
      | [] => false
      | c :: ts => (lowerChar p = lowerChar c) && likeMatch ps ts

/-- The pattern `f"%{query.lower()}%"` that `GTFSDatabase.search_stops`
builds (`gtfs_db.py` line 391): the raw user query is interpolated into the
pattern unescaped, so any `%` or `_` inside it acts as a LIKE wildcard. -/
def sqlLikePattern (query : String) : List Char :=
  '%' :: ((pyLower query).data ++ ['%'])

/-- True of a query containing no LIKE wildcard character. -/
def noWildcard (q : List Char) : Bool := q.all (fun c => !(c = '%' || c = '_'))

/-- Lexicographic character-list comparison: the order used by Python `<=`
on `str` and by SQLite's default BINARY collation (both compare by code
point, shorter prefix first). -/
def charListLe : List Char → List Char → Bool
  | [], _ => true
  | _ :: _, [] => false
  | a :: as, b :: bs => if a < b then true else if b < a then false else charListLe as bs

/-- String comparison `a <= b` (Python / SQLite BINARY). -/
def leStr (a b : String) : Bool := charListLe a.data b.data

/-- Insert into a sorted list, keeping earlier-inserted elements first on
ties: one step of a stable insertion sort. -/
def insSorted (le : α → α → Bool) (a : α) : List α → List α
  | [] => [a]
  | b :: bs => if le a b then a :: b :: bs else b :: insSorted le a bs

/-- Stable sort by a boolean comparison; models Python's stable `list.sort`
(and SQLite `ORDER BY`, whose output order we only ever use through the
sortedness and membership lemmas proved below). -/
def sortStable (le : α → α → Bool) : List α → List α
  | [] => []
  | a :: as => insSorted le a (sortStable le as)

/-- Digit run to a natural number. -/
def digitsToNat (ds : List Char) : ℕ :=
  ds.foldl (fun acc c => acc * 10 + (c.toNat - 48)) 0

/-- Nonempty all-digit check. -/
def allDigits (ds : List Char) : Bool := ds.all (fun c => c.isDigit) && !ds.isEmpty

/-- Python `int(s)`: optional sign, digits; anything else raises
`ValueError` (modelled as `none`). -/
def pyInt (s : String) : Option ℤ :=
  match (pyStrip s).data with
  | '+' :: ds => if allDigits ds then some (digitsToNat ds) else none
  | '-' :: ds => if allDigits ds then some (-(digitsToNat ds : ℤ)) else none
  | ds => if allDigits ds then some (digitsToNat ds) else none

/-- Unsigned part of Python `float(s)` on the plain decimal subset
`digits[.digits]` (the GTFS feed's numeric fields); other shapes are a
`ValueError`. -/
def pyFloatMag (ds : List Char) : Option ℚ :=
  let before := ds.takeWhile (fun c => c ≠ '.')
  let rest := ds.dropWhile (fun c => c ≠ '.')
  match rest with
  | [] => if allDigits ds then some ((digitsToNat ds : ℚ)) else none
  | _ :: after =>
    if after.any (fun c => c = '.') then none
    else if (before.all Char.isDigit) && (after.all Char.isDigit) &&
            (!before.isEmpty || !after.isEmpty) then
      some ((digitsToNat before : ℚ) + (digitsToNat after : ℚ) / ((10 : ℚ) ^ after.length))
    else none

/-- Python `float(s)` (plain decimal subset, with sign and strip). -/
def pyFloat (s : String) : Option ℚ :=
  match (pyStrip s).data with
  | '+' :: ds => pyFloatMag ds
  | '-' :: ds => (pyFloatMag ds).map (fun q => -q)
  | ds => pyFloatMag ds

/-- A CSV row as produced by `csv.DictReader`: an association list from
column name to raw string value. -/
abbrev Row : Type := List (String × String)

/-- `row.get(key, '')`. -/
def getStr (r : Row) (k : String) : String := (r.lookup k).getD ""

/-- `float(row.get(key, 0))`: a missing column defaults to the integer `0`
(which converts exactly); a present but malformed value is a `ValueError`. -/
def floatField (r : Row) (k : String) : Option ℚ :=
  match r.lookup k with
  | none => some 0
  | some s => pyFloat s

/-- `int(row.get(key, d))`. -/
def intField (r : Row) (k : String) (d : ℤ) : Option ℤ :=
  match r.lookup k with
  | none => some d
  | some s => pyInt s

/-- Row of the `stops` table (`gtfs_db.py` lines 89-99 and 156-166). -/
structure StopRec where
  stop_id : String
  stop_code : String
  stop_name : String
  stop_lat : ℚ
  stop_lon : ℚ
  zone_id : String
  stop_url : String
deriving DecidableEq, Repr

/-- Row of the `stop_times` table (`gtfs_db.py` lines 101-109 and 210-217). -/
structure StopTimeRec where
  trip_id : String
  arrival_time : String
  departure_time : String
  stop_id : String
  stop_sequence : ℤ
deriving DecidableEq, Repr

/-- Row of the `routes` table (`gtfs_db.py` lines 111-119 and 182-189). -/
structure RouteRec where
  route_id : String
  route_short_name : String
  route_long_name : String
  route_type : ℤ
  route_color : String
deriving DecidableEq, Repr

/-- Row of the `trips` table (`gtfs_db.py` lines 121-130 and 249-257). -/
structure TripRec where
  trip_id : String
  service_id : String
  route_id : String
  trip_headsign : String
  trip_short_name : String
  direction_id : ℤ
deriving DecidableEq, Repr

/-- Row of the `calendar_dates` table (`gtfs_db.py` lines 132-138, 288-293). -/
structure CalDateRec where
  service_id : String
  date : String
  exception_type : ℤ
deriving DecidableEq, Repr

/-- The relational store built by `GTFSDatabase._build_database`. -/
structure Store where
  stops : List StopRec
  stop_times : List StopTimeRec
  routes : List RouteRec
  trips : List TripRec
  calendar_dates : List CalDateRec
deriving DecidableEq, Repr

/-- The GTFS archive: the five tabular files, each a list of CSV rows. -/
structure Archive where
  stops : List Row
  routes : List Row
  stop_times : List Row
  trips : List Row
  calendar_dates : List Row

/-- Run a fallible parser over every row, aborting at the first failure --
the behaviour of the Python `for row in reader` loops, where a raised
`ValueError` propagates out of `_build_database`. -/
def mapExcept (f : α → Except String β) : List α → Except String (List β)
  | [] => .ok []
  | a :: as =>
    match f a with
    | .error e => .error e
    | .ok b =>
      match mapExcept f as with
      | .error e => .error e
      | .ok bs => .ok (b :: bs)

/-- `gtfs_db.py` lines 156-166: one `stops.txt` row; the public stop code is
lower-cased and stripped at load time; coordinates go through `float`. -/
def parseStopRow (r : Row) : Except String StopRec :=
  match floatField r "stop_lat" with
  | none => .error "could not convert string to float"
  | some lat =>
    match floatField r "stop_lon" with
    | none => .error "could not convert string to float"
    | some lon =>
      .ok { stop_id := getStr r "stop_id", stop_code := pyLower (pyStrip (getStr r "stop_code")),
            stop_name := getStr r "stop_name", stop_lat := lat, stop_lon := lon,
            zone_id := getStr r "zone_id", stop_url := getStr r "stop_url" }

/-- `gtfs_db.py` lines 182-189: one `routes.txt` row (`route_type` defaults
to 3). -/
def parseRouteRow (r : Row) : Except String RouteRec :=
  match intField r "route_type" 3 with
  | none => .error "invalid literal for int"
  | some rt =>
    .ok { route_id := getStr r "route_id", route_short_name := getStr r "route_short_name",
          route_long_name := getStr r "route_long_name", route_type := rt,
          route_color := getStr r "route_color" }

/-- `gtfs_db.py` lines 210-217: one `stop_times.txt` row.  Note: no
referential check against `stops` or `trips` is performed. -/
def parseStopTimeRow (r : Row) : Except String StopTimeRec :=
  match intField r "stop_sequence" 0 with
  | none => .error "invalid literal for int"
  | some sq =>
    .ok { trip_id := getStr r "trip_id", arrival_time := getStr r "arrival_time",
          departure_time := getStr r "departure_time", stop_id := getStr r "stop_id",
          stop_sequence := sq }

/-- `gtfs_db.py` lines 249-257: one `trips.txt` row. -/
def parseTripRow (r : Row) : Except String TripRec :=
  match intField r "direction_id" 0 with
  | none => .error "invalid literal for int"
  | some d =>
    .ok { trip_id := getStr r "trip_id", service_id := getStr r "service_id",
          route_id := getStr r "route_id", trip_headsign := getStr r "trip_headsign",
          trip_short_name := getStr r "trip_short_name", direction_id := d }

/-- `gtfs_db.py` lines 288-293: one `calendar_dates.txt` row
(`exception_type` defaults to 1). -/
def parseCalDateRow (r : Row) : Except String CalDateRec :=
  match intField r "exception_type" 1 with
  | none => .error "invalid literal for int"
  | some et =>
    .ok { service_id := getStr r "service_id", date := getStr r "date", exception_type := et }

/-- The pure ETL core of `GTFSDatabase._build_database` (lines 149-311): the
five files are parsed in source order (stops, routes, stop_times, trips,
calendar_dates); every parsed row is inserted, and the first parse failure
aborts the whole build. -/
def buildTables (ar : Archive) : Except String Store :=
  match mapExcept parseStopRow ar.stops with
  | .error e => .error e
  | .ok stops =>
    match mapExcept parseRouteRow ar.routes with
    | .error e => .error e
    | .ok routes =>
      match mapExcept parseStopTimeRow ar.stop_times with
      | .error e => .error e
      | .ok stop_times =>
        match mapExcept parseTripRow ar.trips with
        | .error e => .error e
        | .ok trips =>
          match mapExcept parseCalDateRow ar.calendar_dates with
          | .error e => .error e
          | .ok cds => .ok ⟨stops, stop_times, routes, trips, cds⟩

/-- The on-disk database file as readers can observe it: either a complete
committed store, or the fresh file `sqlite3.connect` creates before the
build has committed. -/
inductive DBFile
  | complete (s : Store)
  | halfBuilt
deriving DecidableEq

/-- The slice of the filesystem `_build_database` touches: the contents of
`gtfs.db` (`none` = file absent). -/
structure FS where
  db : Option DBFile
deriving DecidableEq

/-- `GTFSDatabase._build_database` (lines 76-316) as a filesystem
transition.  The code first unlinks any existing `gtfs.db` (lines 79-80) and
then `sqlite3.connect` re-creates it in its final location (line 83), so
from that point the previous store is gone and a fresh in-progress file is
visible; `conn.commit()` runs only after all five loads succeed (line 313).
A parse error therefore propagates out leaving the half-built file, never
the previous store. -/
def GTFSDatabase.build_database (_fs : FS) (ar : Archive) : FS × Except String Unit :=
  let fs1 : FS := ⟨some DBFile.halfBuilt⟩
  match buildTables ar with
  | .ok st => (⟨some (DBFile.complete st)⟩, .ok ())
  | .error e => (fs1, .error e)

/-- One result row of the departures SQL query (`gtfs_db.py` lines
441-460). -/
structure DepRow where
  departure_time : String
  arrival_time : String
  route_short_name : String
  route_long_name : String
  route_type : ℤ
  trip_headsign : String
  trip_short_name : String
deriving DecidableEq, Repr

/-- The SQL query of `get_scheduled_departures` (lines 441-460): join
`stop_times`, `trips`, `routes` and `calendar_dates`, keep rows for the
given stop whose departure time compares `>=` the current time (SQLite TEXT
comparison) with an exception of type 1 ("added") on the current date, then
`DISTINCT`, `ORDER BY departure_time`, `LIMIT`. -/
def sqlDepartureRows (s : Store) (sid now date : String) : List DepRow :=
  s.stop_times.flatMap (fun st =>
    s.trips.flatMap (fun t =>
      s.routes.flatMap (fun r =>
        s.calendar_dates.filterMap (fun cd =>
          if st.trip_id = t.trip_id ∧ t.route_id = r.route_id ∧ t.service_id = cd.service_id ∧
             st.stop_id = sid ∧ leStr now st.departure_time = true ∧ cd.date = date ∧
             cd.exception_type = 1
          then some ⟨st.departure_time, st.arrival_time, r.route_short_name, r.route_long_name,
                     r.route_type, t.trip_headsign, t.trip_short_name⟩
          else none))))

/-- Python `s or d` for strings: the default replaces the empty string. -/
def orDefault (s d : String) : String := if s = "" then d else s

/-- `route_type_names.get(route_type, 'Transit')` (lines 466-468). -/
def modeLabel (rt : ℤ) : String :=
  if rt = 0 then "Tram" else if rt = 1 then "Metro" else if rt = 2 then "Train"
  else if rt = 3 then "Bus" else if rt = 4 then "Ferry" else if rt = 5 then "Cable Car"
  else if rt = 6 then "Gondola" else if rt = 7 then "Funicular" else "Transit"

/-- A DepartureRecord as returned to the HTTP layer (lines 470-479). -/
structure DepOut where
  departure_time : String
  arrival_time : String
  route_short_name : String
  route_long_name : String
  trip_headsign : String
  trip_short_name : String
  mode : String
  stop_name : String
deriving DecidableEq, Repr

/-- `GTFSDatabase.get_scheduled_departures` (lines 418-481).  The wall-clock
strings `now` (`%H:%M:%S`) and `date` (`%Y%m%d`) that the code reads from
`datetime.now()` are passed as parameters.  The stop code is resolved by
exact equality against the (load-time lower-cased, stripped) stored codes,
`LIMIT 1` picking the first row in insertion order; an unresolved code
returns the empty list. -/
def GTFSDatabase.get_scheduled_departures (s : Store) (stop_code : String) (now date : String)
    (lim : ℕ) : List DepOut :=
  match s.stops.find? (fun st => decide (st.stop_code = stop_code)) with
  | none => []
  | some stop =>
    (((sortStable (fun a b => leStr a.departure_time b.departure_time)
        (sqlDepartureRows s stop.stop_id now date).dedup).take lim).map
      (fun r =>
        { departure_time := r.departure_time, arrival_time := r.arrival_time,
          route_short_name := orDefault r.route_short_name "N/A",
          route_long_name := orDefault r.route_long_name "",
          trip_headsign := orDefault r.trip_headsign "Unknown destination",
          trip_short_name := orDefault r.trip_short_name "",
          mode := modeLabel r.route_type, stop_name := stop.stop_name }))

/-- One stop dict as held in `GTFSParser.stops` (`gtfs_parser.py` lines
218-226); the coordinate type is a parameter so the same shape serves the
exact (`ℚ`) and the geometric (`ℝ`) developments. -/
structure PStop (α : Type) where
  stop_id : String
  stop_code : String
  stop_name : String
  lat : α
  lon : α
  zone_id : String
  stop_url : String
deriving DecidableEq

/-- A stop-search result dict (`gtfs_db.py` lines 408-414 /
`gtfs_parser.py` lines 312-318). -/
structure SearchResult (α : Type) where
  stop_code : String
  stop_name : String
  lat : α
  lon : α
  has_schedule : Bool
deriving DecidableEq

/-- The Python ranking key `not stop_name.lower().startswith(query_lower)`
(`gtfs_parser.py` lines 324-327) as a number: 0 for a name starting with the
query, 1 otherwise (`False < True`). -/
def pyRank (ql : String) (nm : String) : ℕ :=
  if startsWithPy (pyLower nm) ql then 0 else 1

/-- The full tuple key `(not startswith, stop_name)` of the ranking sort:
lexicographic on (rank, original-case name). -/
def searchLe {α : Type} (ql : String) (a b : SearchResult α) : Bool :=
  decide (pyRank ql a.stop_name < pyRank ql b.stop_name) ||
    (decide (pyRank ql a.stop_name = pyRank ql b.stop_name) && leStr a.stop_name b.stop_name)

/-- `GTFSParser.search_stops` (lines 299-329): iterate the stop dict in
insertion order, collect case-insensitive substring matches, break once
`limit` results are collected, then stable-sort by
`(not startswith(query), stop_name)`. -/
def GTFSParser.search_stops {α : Type} (stops : List (String × PStop α))
    (schedKeys : List String) (query : String) (lim : ℕ) : List (SearchResult α) :=
  sortStable (searchLe (pyLower query))
    (((stops.filter (fun p => containsPy (pyLower p.2.stop_name) (pyLower query))).take lim).map
      (fun p => ⟨p.1, p.2.stop_name, p.2.lat, p.2.lon, schedKeys.contains p.1⟩))

/-- `GTFSDatabase.search_stops` (lines 389-416): SQL
`WHERE LOWER(stop_name) LIKE ? ORDER BY stop_name LIMIT ?` with the pattern
`f"%{query.lower()}%"` (wildcards in the user query pass through unescaped,
see `sqlLikePattern`), and `has_schedule` from a correlated `stop_times`
count.  Note the ordering is plain alphabetical: there is no
prefix-priority ranking here. -/
def GTFSDatabase.search_stops (s : Store) (query : String) (lim : ℕ) : List (SearchResult ℚ) :=
  ((sortStable (fun a b => leStr a.stop_name b.stop_name)
      (s.stops.filter
        (fun st => likeMatch (sqlLikePattern query) (pyLower st.stop_name).data))).take lim).map
    (fun st => ⟨st.stop_code, st.stop_name, st.stop_lat, st.stop_lon,
                s.stop_times.any (fun t => t.stop_id == st.stop_id)⟩)

/-- A nearby-stops result dict (`gtfs_parser.py` lines 342-349). -/
structure NearbyRec (α : Type) where
  stop_code : String
  stop_name : String
  lat : α
  lon : α
  distance_meters : ℤ
  has_schedule : Bool
deriving DecidableEq

/-- Degrees to radians, `math.radians`. -/
noncomputable def radians (x : ℝ) : ℝ := x * Real.pi / 180

/-- `math.atan2(y, x)` over the reals. -/
noncomputable def atan2R (y x : ℝ) : ℝ :=
  if 0 < x then Real.arctan (y / x)
  else if x < 0 then
    (if 0 ≤ y then Real.arctan (y / x) + Real.pi else Real.arctan (y / x) - Real.pi)
  else (if 0 < y then Real.pi / 2 else if y < 0 then -(Real.pi / 2) else 0)

/-- The haversine intermediate `a` of `GTFSParser._calculate_distance`
(lines 388-395). -/
noncomputable def haversineA (lat1 lon1 lat2 lon2 : ℝ) : ℝ :=
  Real.sin (radians (lat2 - lat1) / 2) ^ 2 +
    Real.cos (radians lat1) * Real.cos (radians lat2) * Real.sin (radians (lon2 - lon1) / 2) ^ 2

/-- `GTFSParser._calculate_distance` (lines 380-399): haversine distance in
meters with Earth radius 6 371 000 m,
`R * 2 * atan2(sqrt(a), sqrt(1 - a))`. -/
noncomputable def calculate_distance (lat1 lon1 lat2 lon2 : ℝ) : ℝ :=
  6371000 * (2 * atan2R (Real.sqrt (haversineA lat1 lon1 lat2 lon2))
    (Real.sqrt (1 - haversineA lat1 lon1 lat2 lon2)))

/-- Python `round(x)` on a real value: round half to even. -/
noncomputable def pyRoundR (x : ℝ) : ℤ :=
  if Int.fract x = 1 / 2 then (if Even ⌊x⌋ then ⌊x⌋ else ⌊x⌋ + 1) else round x

/-- `GTFSParser.find_nearby_stops` (lines 331-354): keep stops whose
full-precision haversine distance is at most the radius, record the rounded
distance, sort ascending by that rounded `distance_meters`, truncate to
`limit`. -/
noncomputable def GTFSParser.find_nearby_stops (stops : List (String × PStop ℝ))
    (schedKeys : List String) (lat lon : ℝ) (radius : ℤ) (lim : ℕ) : List (NearbyRec ℝ) :=
  (sortStable (fun a b => decide (a.distance_meters ≤ b.distance_meters))
    (stops.filterMap (fun p =>
      if calculate_distance lat lon p.2.lat p.2.lon ≤ (radius : ℝ) then
        some ⟨p.1, p.2.stop_name, p.2.lat, p.2.lon,
              pyRoundR (calculate_distance lat lon p.2.lat p.2.lon), schedKeys.contains p.1⟩
      else none))).take lim

/-- The query operations `app.py` can reach through its store object: the
application instantiates `GTFSDatabase` (line 19 `from gtfs_db import
GTFSDatabase`, line 58), whose class body has no `find_nearby_stops`
definition, so attribute lookup is modelled as an `Option`. -/
structure StoreOps (α : Type) where
  find_nearby_stops : Option (α → α → ℤ → ℕ → List (NearbyRec α))

/-- The method names defined in `class GTFSDatabase` (`gtfs_db.py`). -/
def GTFSDatabase.methodNames : List String :=
  ["__init__", "load_data", "_connect", "_build_database", "_is_db_outdated",
   "_is_cache_expired", "_download_gtfs", "search_stops", "get_scheduled_departures",
   "get_stats"]

/-- The method names defined in `class GTFSParser` (`gtfs_parser.py`). -/
def GTFSParser.methodNames : List String :=
  ["__init__", "get_stats", "_load_metadata", "_save_metadata", "load_data",
   "_is_cache_expired", "_download_gtfs", "_parse_stops", "_parse_stop_times",
   "_get_stop_code_by_id", "search_stops", "find_nearby_stops",
   "get_scheduled_departures", "_calculate_distance"]

/-- The routes `app.py` registers. -/
def appRoutes : List String :=
  ["/", "/health", "/api/stops/search", "/api/stops/nearby",
   "/api/stops/<stop_code>/departures"]

/-- Attribute view of the store `app.py` actually uses: `GTFSDatabase` has
no `find_nearby_stops`, so the lookup yields `none` (an `AttributeError` at
call time). -/
def GTFSDatabase.ops (_s : Store) : StoreOps ℚ :=
  { find_nearby_stops := none }

/-- Attribute view of the in-memory `GTFSParser` variant, which does define
`find_nearby_stops`. -/
noncomputable def GTFSParser.ops (stops : List (String × PStop ℝ)) (schedKeys : List String) :
    StoreOps ℝ :=
  { find_nearby_stops := some (fun lat lon radius lim =>
      GTFSParser.find_nearby_stops stops schedKeys lat lon radius lim) }

/-- Outcome of the `/api/stops/nearby` handler. -/
inductive NearbyOut
  | err400 (msg : String)
  | err500 (msg : String)
  | ok200 (stops : List (NearbyRec ℚ))
deriving DecidableEq

/-- The `nearby_stops` handler of `app.py` (lines 168-214): validate the
parameters, then call `gtfs_parser.find_nearby_stops`; when the store object
lacks that attribute the raised `AttributeError` is caught by the blanket
`except Exception` and surfaced as HTTP 500 "Nearby search failed". -/
def nearbyStops (ops : StoreOps ℚ) (lat lon : ℚ) (radius lim : ℤ) : NearbyOut :=
  if ¬ (-90 ≤ lat ∧ lat ≤ 90) then .err400 "Latitude must be between -90 and 90"
  else if ¬ (-180 ≤ lon ∧ lon ≤ 180) then .err400 "Longitude must be between -180 and 180"
  else if ¬ (100 ≤ radius ∧ radius ≤ 10000) then .err400 "Radius must be between 100 and 10000 meters"
  else if ¬ (1 ≤ lim ∧ lim ≤ 100) then .err400 "Limit must be between 1 and 100"
  else
    match ops.find_nearby_stops with
    | none => .err500 "Nearby search failed"
    | some f => .ok200 (f lat lon radius lim.toNat)

/-- Python `round(q)` on an exact rational: round half to even. -/
def pyRoundQ (q : ℚ) : ℤ :=
  if Int.fract q = 1 / 2 then (if Even ⌊q⌋ then ⌊q⌋ else ⌊q⌋ + 1) else round q

/-- Python `round(q, 1)`: round half to even at one decimal place. -/
def round1 (q : ℚ) : ℚ := (pyRoundQ (q * 10) : ℚ) / 10

/-- Python division, which raises `ZeroDivisionError` on a zero divisor. -/
def pyDivQ (a b : ℚ) : Except String ℚ :=
  if b = 0 then .error "ZeroDivisionError: division by zero" else .ok (a / b)

/-- The statistics dict of `GTFSDatabase.get_stats` (lines 494-499). -/
structure DbStats where
  stops_count : ℕ
  stops_with_schedule : ℕ
  total_departures : ℕ
  coverage_percent : ℚ
deriving DecidableEq, Repr

/-- `GTFSDatabase.get_stats` (lines 483-499): `COUNT(*)` over stops,
`COUNT(DISTINCT stop_id)` over stop_times, `COUNT(*)` over stop_times, and
`round((stops_with_schedule / stops_count) * 100, 1) if stops_count > 0 else 0`;
the conditional guards the division. -/
def GTFSDatabase.get_stats (s : Store) : Except String DbStats :=
  if 0 < s.stops.length then
    match pyDivQ (((s.stop_times.map (fun st => st.stop_id)).dedup).length : ℚ)
        ((s.stops.length : ℚ)) with
    | .error e => .error e
    | .ok q =>
      .ok ⟨s.stops.length, ((s.stop_times.map (fun st => st.stop_id)).dedup).length,
           s.stop_times.length, round1 (q * 100)⟩
  else
    .ok ⟨s.stops.length, ((s.stop_times.map (fun st => st.stop_id)).dedup).length,
         s.stop_times.length, 0⟩

/-- What a download run did: how many HTTP requests it issued and which
`time.sleep` durations (seconds) it performed. -/
structure FetchTrace where
  requests : ℕ
  sleeps : List ℕ
deriving DecidableEq, Repr

/-- How a download can fail. -/
inductive FetchErr
  | exhausted
  | fatalHttp (code : ℕ)
deriving DecidableEq, Repr

/-- How a download can succeed. -/
inductive DlOutcome
  | notModified
  | downloaded
deriving DecidableEq, Repr

/-- The retry loop of `GTFSParser._download_gtfs` (lines 114-202):
`for attempt in range(max_retries + 1)`; 304 returns success; 429 sleeps
`(attempt + 1) * 5` minutes and retries while `attempt < max_retries`, else
raises the exhausted-retries error; any other status `>= 400` raises
immediately via `raise_for_status`; otherwise the body is downloaded.  The
server's successive responses are modelled as a function from request index
to status code. -/
def parserTry (maxRetries : ℕ) (resp : ℕ → ℕ) :
    List ℕ → FetchTrace → FetchTrace × Except FetchErr DlOutcome
  | [], tr => (tr, .error .exhausted)
  | attempt :: rest, tr =>
    let code := resp tr.requests
    let tr1 : FetchTrace := ⟨tr.requests + 1, tr.sleeps⟩
    if code = 304 then (tr1, .ok .notModified)
    else if code = 429 then
      (if attempt < maxRetries then
        parserTry maxRetries resp rest ⟨tr1.requests, tr1.sleeps ++ [(attempt + 1) * 5 * 60]⟩
      else (tr1, .error .exhausted))
    else if 400 ≤ code then (tr1, .error (.fatalHttp code))
    else (tr1, .ok .downloaded)

/-- `GTFSParser._download_gtfs` with `max_retries = 3` (line 123). -/
def GTFSParser.download_gtfs (resp : ℕ → ℕ) : FetchTrace × Except FetchErr DlOutcome :=
  parserTry 3 resp (List.range 4) ⟨0, []⟩

/-- `GTFSDatabase._download_gtfs` (lines 336-387): a single request; 304 is
success, any status other than 200 raises
`Exception("Failed to download GTFS: HTTP ...")` immediately -- there is no
retry and no backoff in this variant. -/
def GTFSDatabase.download_gtfs (resp : ℕ → ℕ) : FetchTrace × Except FetchErr DlOutcome :=
  let code := resp 0
  let tr : FetchTrace := ⟨1, []⟩
  if code = 304 then (tr, .ok .notModified)
  else if code ≠ 200 then (tr, .error (.fatalHttp code))
  else (tr, .ok .downloaded)

/- Concrete data used by counterexamples and witnesses. -/

/-- A previously built, servable store (one stop). -/
def c1OldStore : Store :=
  ⟨[⟨"s1", "oldcode", "Old stop", 0, 0, "", ""⟩], [], [], [], []⟩

/-- An archive whose `stops.txt` has a malformed required numeric field
(`stop_lat = "not-a-number"`). -/
def c1BadArchive : Archive :=
  { stops := [[("stop_id", "s2"), ("stop_code", "nc"), ("stop_name", "New stop"),
               ("stop_lat", "not-a-number")]],
    routes := [], stop_times := [], trips := [], calendar_dates := [] }

/-- Store with stop names "ab" and "ba" for the search-ranking counterexample. -/
def c3Store : Store :=
  ⟨[⟨"1", "1", "ab", 0, 0, "", ""⟩, ⟨"2", "2", "ba", 0, 0, "", ""⟩], [], [], [], []⟩

/-- An arbitrary store for the C4 witness. -/
def c4Store : Store := ⟨[], [], [], [], []⟩

/-- An archive whose single `stop_times.txt` row references a stop and a
trip that exist nowhere in the archive. -/
def c7Archive : Archive :=
  { stops := [[("stop_id", "s1"), ("stop_code", "11"), ("stop_name", "Alpha")]],
    routes := [],
    stop_times := [[("trip_id", "ghost-trip"), ("departure_time", "12:00:00"),
                    ("stop_id", "ghost-stop")]],
    trips := [], calendar_dates := [] }

/-- The single dangling `stop_times` row of `c7Archive`. -/
def c7Row : Row :=
  [("trip_id", "ghost-trip"), ("departure_time", "12:00:00"), ("stop_id", "ghost-stop")]

/-- The store `buildTables` produces from `c7Archive`: the dangling row is
loaded as-is. -/
def c7Store : Store :=
  ⟨[⟨"s1", "11", "Alpha", 0, 0, "", ""⟩],
   [⟨"ghost-trip", "", "12:00:00", "ghost-stop", 0⟩], [], [], []⟩

/-- Store with one stop (code "abc") for the unresolvable-code witness. -/
def c8Store : Store :=
  ⟨[⟨"s1", "abc", "Some stop", 0, 0, "", ""⟩], [], [], [], []⟩

/- Generic lemmas about the stable sort and the string comparison. -/

/-- Membership in a one-step insertion. -/
theorem mem_insSorted {le : α → α → Bool} {a x : α} {l : List α} :
    x ∈ insSorted le a l ↔ x = a ∨ x ∈ l := by
  induction l with
  | nil => simp [insSorted]
  | cons b bs ih =>
    unfold insSorted
    by_cases h : le a b = true
    · rw [if_pos h]
      simp [List.mem_cons]
    · rw [if_neg h]
      simp only [List.mem_cons, ih]
      tauto

/-- `sortStable` permutes: same members. -/
theorem mem_sortStable {le : α → α → Bool} {x : α} {l : List α} :
    x ∈ sortStable le l ↔ x ∈ l := by
  induction l with
  | nil => simp [sortStable]
  | cons b bs ih =>
    unfold sortStable
    rw [mem_insSorted, ih, List.mem_cons]

/-- Inserting into a sorted list keeps it sorted, given a transitive and
total comparison. -/
theorem pairwise_insSorted {le : α → α → Bool}
    (htrans : ∀ a b c, le a b = true → le b c = true → le a c = true)
    (htot : ∀ a b, le a b = true ∨ le b a = true)
    {a : α} {l : List α} (hl : l.Pairwise (fun x y => le x y = true)) :
    (insSorted le a l).Pairwise (fun x y => le x y = true) := by
  induction l with
  | nil => simp [insSorted]
  | cons b bs ih =>
    rcases List.pairwise_cons.mp hl with ⟨hb, hbs⟩
    unfold insSorted
    by_cases h : le a b = true
    · rw [if_pos h]
      refine List.pairwise_cons.mpr ⟨?_, hl⟩
      intro x hx
      rcases List.mem_cons.mp hx with rfl | hx
      · exact h
      · exact htrans a b x h (hb x hx)
    · rw [if_neg h]
      refine List.pairwise_cons.mpr ⟨?_, ih hbs⟩
      intro x hx
      rcases mem_insSorted.mp hx with heq | hx
      · rw [heq]
        rcases htot a b with h' | h'
        · exact absurd h' h
        · exact h'
      · exact hb x hx

/-- `sortStable` output is sorted for a transitive, total comparison. -/
theorem pairwise_sortStable {le : α → α → Bool}
    (htrans : ∀ a b c, le a b = true → le b c = true → le a c = true)
    (htot : ∀ a b, le a b = true ∨ le b a = true) :
    ∀ l : List α, (sortStable le l).Pairwise (fun x y => le x y = true)
  | [] => by simp [sortStable]
  | a :: as => pairwise_insSorted htrans htot (pairwise_sortStable htrans htot as)

/-- `charListLe` is total. -/
theorem charListLe_total : ∀ as bs : List Char, charListLe as bs = true ∨ charListLe bs as = true
  | [], _ => Or.inl rfl
  | _ :: _, [] => Or.inr rfl
  | a :: as, b :: bs => by
    rcases lt_trichotomy a b with h | h | h
    · left
      unfold charListLe
      rw [if_pos h]
    · subst h
      unfold charListLe
      rw [if_neg (lt_irrefl a), if_neg (lt_irrefl a), if_neg (lt_irrefl a),
        if_neg (lt_irrefl a)]
      exact charListLe_total as bs
    · right
      unfold charListLe
      rw [if_pos h]

/-- `charListLe` is transitive. -/
theorem charListLe_trans :
    ∀ as bs cs : List Char,
      charListLe as bs = true → charListLe bs cs = true → charListLe as cs = true
  | [], _, _ => fun _ _ => rfl
  | _ :: _, [], _ => fun h _ => by simp [charListLe] at h
  | _ :: _, _ :: _, [] => fun _ h => by simp [charListLe] at h
  | a :: as, b :: bs, c :: cs => by
    intro h1 h2
    unfold charListLe at h1 h2 ⊢
    rcases lt_trichotomy a b with hab | hab | hab
    · rcases lt_trichotomy b c with hbc | hbc | hbc
      · rw [if_pos (lt_trans hab hbc)]
      · subst hbc
        rw [if_pos hab]
      · rw [if_neg (asymm hbc), if_pos hbc] at h2
        exact Bool.noConfusion h2
    · subst hab
      rw [if_neg (lt_irrefl a), if_neg (lt_irrefl a)] at h1
      rcases lt_trichotomy a c with hac | hac | hac
      · rw [if_pos hac]
      · subst hac
        rw [if_neg (lt_irrefl a), if_neg (lt_irrefl a)] at h2
        rw [if_neg (lt_irrefl a), if_neg (lt_irrefl a)]
        exact charListLe_trans as bs cs h1 h2
      · rw [if_neg (asymm hac), if_pos hac] at h2
        exact Bool.noConfusion h2
    · rw [if_neg (asymm hab), if_pos hab] at h1
      exact Bool.noConfusion h1

/-- `leStr` is total. -/
theorem leStr_total (a b : String) : leStr a b = true ∨ leStr b a = true :=
  charListLe_total a.data b.data

/-- `leStr` is transitive. -/
theorem leStr_trans {a b c : String} (h1 : leStr a b = true) (h2 : leStr b c = true) :
    leStr a c = true :=
  charListLe_trans a.data b.data c.data h1 h2

/-- Unfolding of the tuple-key comparison of the parser's ranking sort. -/
theorem searchLe_iff {α : Type} (ql : String) (a b : SearchResult α) :
    searchLe ql a b = true ↔
      (pyRank ql a.stop_name < pyRank ql b.stop_name ∨
        (pyRank ql a.stop_name = pyRank ql b.stop_name ∧ leStr a.stop_name b.stop_name = true)) := by
  unfold searchLe
  simp [Bool.or_eq_true, Bool.and_eq_true, decide_eq_true_iff]

/-- `searchLe` is total. -/
theorem searchLe_total {α : Type} (ql : String) (a b : SearchResult α) :
    searchLe ql a b = true ∨ searchLe ql b a = true := by
  rcases Nat.lt_trichotomy (pyRank ql a.stop_name) (pyRank ql b.stop_name) with h | h | h
  · exact Or.inl ((searchLe_iff ql a b).mpr (Or.inl h))
  · rcases leStr_total a.stop_name b.stop_name with hl | hl
    · exact Or.inl ((searchLe_iff ql a b).mpr (Or.inr ⟨h, hl⟩))
    · exact Or.inr ((searchLe_iff ql b a).mpr (Or.inr ⟨h.symm, hl⟩))
  · exact Or.inr ((searchLe_iff ql b a).mpr (Or.inl h))

/-- `searchLe` is transitive. -/
theorem searchLe_trans {α : Type} (ql : String) (a b c : SearchResult α)
    (h1 : searchLe ql a b = true) (h2 : searchLe ql b c = true) : searchLe ql a c = true := by
  rcases (searchLe_iff ql a b).mp h1 with h1' | ⟨h1e, h1s⟩
  · rcases (searchLe_iff ql b c).mp h2 with h2' | ⟨h2e, _⟩
    · exact (searchLe_iff ql a c).mpr (Or.inl (Nat.lt_trans h1' h2'))
    · exact (searchLe_iff ql a c).mpr (Or.inl (h2e ▸ h1'))
  · rcases (searchLe_iff ql b c).mp h2 with h2' | ⟨h2e, h2s⟩
    · exact (searchLe_iff ql a c).mpr (Or.inl (h1e ▸ h2'))
    · exact (searchLe_iff ql a c).mpr (Or.inr ⟨h1e.trans h2e, leStr_trans h1s h2s⟩)

/-- Every input element maps to an output element when `mapExcept`
succeeds. -/
theorem mapExcept_mem {f : α → Except String β} :
    ∀ {l : List α} {out : List β}, mapExcept f l = .ok out →
      ∀ a ∈ l, ∃ b, f a = .ok b ∧ b ∈ out := by
  intro l
  induction l with
  | nil => intro out _ a ha; exact absurd ha (List.not_mem_nil a)
  | cons x xs ih =>
    intro out h a ha
    unfold mapExcept at h
    cases hx : f x with
    | error e => rw [hx] at h; exact absurd h (by simp)
    | ok b =>
      rw [hx] at h
      cases hxs : mapExcept f xs with
      | error e => rw [hxs] at h; exact absurd h (by simp)
      | ok bs =>
        rw [hxs] at h
        injection h with h
        subst h
        rcases List.mem_cons.mp ha with rfl | ha
        · exact ⟨b, hx, List.mem_cons_self b bs⟩
        · obtain ⟨b', hb', hmem⟩ := ih hxs a ha
          exact ⟨b', hb', List.mem_cons_of_mem b hmem⟩

/-- `List.any` respects pointwise-equal predicates. -/
theorem anyCongr {α : Type} {l : List α} {f g : α → Bool} (h : ∀ a ∈ l, f a = g a) :
    l.any f = l.any g := by
  induction l with
  | nil => rfl
  | cons a as ih =>
    simp only [List.any_cons]
    rw [h a (List.mem_cons_self a as), ih (fun x hx => h x (List.mem_cons_of_mem a hx))]

/-- Some suffix of any list is empty, so the bare `%` pattern always
matches. -/
theorem tails_any_isEmpty {α : Type} : ∀ t : List α, (t.tails.any (fun s => s.isEmpty)) = true
  | [] => rfl
  | a :: as => by
    rw [List.tails_cons]
    simp only [List.any_cons]
    rw [tails_any_isEmpty as]
    simp

/-- A wildcard-free pattern followed by `%` matches exactly the texts that
start with it, case-insensitively. -/
theorem likeMatch_append_percent :
    ∀ q t : List Char, noWildcard q = true → likeMatch (q ++ ['%']) t = leadsWithCI t q
  | [], t, _ => by
    show likeMatch ('%' :: []) t = leadsWithCI t []
    unfold likeMatch
    rw [if_pos rfl]
    have h1 : (t.tails.any (fun s => likeMatch [] s)) = (t.tails.any (fun s => s.isEmpty)) :=
      anyCongr (fun s _ => rfl)
    rw [h1, tails_any_isEmpty t]
    cases t with
    | nil => rfl
    | cons c ts => rfl
  | p :: q', t, hw => by
    have hw' : ((!(p = '%' || p = '_')) && noWildcard q') = true := by
      simpa [noWildcard, List.all_cons] using hw
    rw [Bool.and_eq_true] at hw'
    have hp1 : p ≠ '%' := by
      intro hp
      simp [hp] at hw'
    have hp2 : p ≠ '_' := by
      intro hp
      simp [hp] at hw'
    show likeMatch (p :: (q' ++ ['%'])) t = leadsWithCI t (p :: q')
    unfold likeMatch
    rw [if_neg hp1, if_neg hp2]
    cases t with
    | nil => rfl
    | cons c ts =>
      show ((lowerChar p = lowerChar c : Bool) && likeMatch (q' ++ ['%']) ts) =
        leadsWithCI (c :: ts) (p :: q')
      rw [likeMatch_append_percent q' ts hw'.2]
      rfl

/-- Trying a prefix test at every suffix is exactly the substring test. -/
theorem any_tails_leadsCI : ∀ t q : List Char,
    (t.tails.any (fun s => leadsWithCI s q)) = hasSubCI t q
  | [], q => by
    cases q with
    | nil => rfl
    | cons b bs => rfl
  | a :: t, q => by
    rw [List.tails_cons]
    simp only [List.any_cons]
    rw [any_tails_leadsCI t q]
    rfl

/-- For a wildcard-free query `q`, the SQL pattern `%q%` matches exactly
the texts containing `q` case-insensitively. -/
theorem likeContains (q t : List Char) (hw : noWildcard q = true) :
    likeMatch ('%' :: (q ++ ['%'])) t = hasSubCI t q := by
  unfold likeMatch
  rw [if_pos rfl]
  have h1 : (t.tails.any (fun s => likeMatch (q ++ ['%']) s)) =
      (t.tails.any (fun s => leadsWithCI s q)) :=
    anyCongr (fun s _ => likeMatch_append_percent q s hw)
  rw [h1]
  exact any_tails_leadsCI t q

/-- C1, counterexample.  The claim says a build hitting an unrecoverable
parse error leaves the previously built store present, unchanged and
servable.  At this concrete input (a previous complete store, and an archive
whose `stops.txt` has the malformed numeric field `stop_lat =
"not-a-number"`) `_build_database` fails the parse but the resulting file
state is the half-built fresh database, not the previous store: the code
unlinked `gtfs.db` and re-created it in place before parsing. -/
theorem C1_counterexample :
    GTFSDatabase.build_database ⟨some (DBFile.complete c1OldStore)⟩ c1BadArchive =
      (⟨some DBFile.halfBuilt⟩, Except.error "could not convert string to float") ∧
    (⟨some DBFile.halfBuilt⟩ : FS) ≠ ⟨some (DBFile.complete c1OldStore)⟩ :=
  ⟨rfl, by decide⟩

/-- C1, amended.  The build is not all-or-nothing: `_build_database`
deletes any previous store and builds directly in the final location, so for
every prior file state and every archive whose parse fails, the resulting
file state is the half-built fresh database -- the previous store (if any)
is gone and readers can observe the half-built file. -/
theorem C1_corrected (fs : FS) (ar : Archive) (e : String)
    (h : buildTables ar = .error e) :
    GTFSDatabase.build_database fs ar = (⟨some DBFile.halfBuilt⟩, Except.error e) := by
  unfold GTFSDatabase.build_database
  rw [h]

/-- C1, witness for the amended theorem at the concrete failing archive. -/
theorem C1_witness :
    GTFSDatabase.build_database ⟨some (DBFile.complete c1OldStore)⟩ c1BadArchive =
      (⟨some DBFile.halfBuilt⟩, Except.error "could not convert string to float") :=
  C1_corrected ⟨some (DBFile.complete c1OldStore)⟩ c1BadArchive
    "could not convert string to float" rfl

/-- C6, counterexample.  The claim says every fetch retries a rate-limited
response with 5/10/15-minute backoff before failing.  The fetcher the
application actually runs (`GTFSDatabase._download_gtfs`) issues exactly one
request, performs no sleep, and fails immediately when the server answers
429. -/
theorem C6_counterexample :
    GTFSDatabase.download_gtfs (fun _ => 429) =
      (⟨1, []⟩, Except.error (FetchErr.fatalHttp 429)) := rfl

/-- C6, amended.  Only `GTFSParser._download_gtfs` implements the retry
policy: on persistent 429 it makes 4 attempts with sleeps of 300, 600 and
900 seconds (5, 10, 15 minutes) and then fails exhausted; a 429 followed by
success sleeps 5 minutes and succeeds; any other non-success status (other
than 304) fails immediately with no retry.  `GTFSDatabase._download_gtfs`,
the variant `app.py` uses, never retries: any status other than 200/304 --
including 429 -- is an immediate fatal error after a single request. -/
theorem C6_corrected :
    (∀ resp : ℕ → ℕ, (∀ i, resp i = 429) →
      GTFSParser.download_gtfs resp =
        (⟨4, [300, 600, 900]⟩, Except.error FetchErr.exhausted)) ∧
    (∀ resp : ℕ → ℕ, resp 0 = 429 → resp 1 = 200 →
      GTFSParser.download_gtfs resp = (⟨2, [300]⟩, Except.ok DlOutcome.downloaded)) ∧
    (∀ code : ℕ, 400 ≤ code → code ≠ 429 →
      GTFSParser.download_gtfs (fun _ => code) =
        (⟨1, []⟩, Except.error (FetchErr.fatalHttp code))) ∧
    (∀ code : ℕ, code ≠ 304 → code ≠ 200 →
      GTFSDatabase.download_gtfs (fun _ => code) =
        (⟨1, []⟩, Except.error (FetchErr.fatalHttp code))) := by
  refine ⟨?_, ?_, ?_, ?_⟩
  · intro resp h
    unfold GTFSParser.download_gtfs
    rw [show List.range 4 = [0, 1, 2, 3] from rfl]
    simp [parserTry, h]
  · intro resp h0 h1
    unfold GTFSParser.download_gtfs
    rw [show List.range 4 = [0, 1, 2, 3] from rfl]
    simp [parserTry, h0, h1]
  · intro code h4 h429
    have h304 : code ≠ 304 := by omega
    unfold GTFSParser.download_gtfs
    rw [show List.range 4 = [0, 1, 2, 3] from rfl]
    simp [parserTry, h304, h429, h4]
  · intro code h304 h200
    simp [GTFSDatabase.download_gtfs, h304, h200]

/-- C6, witness for the amended theorem at concrete response sequences. -/
theorem C6_witness :
    GTFSParser.download_gtfs (fun _ => 429) =
      (⟨4, [300, 600, 900]⟩, Except.error FetchErr.exhausted) ∧
    GTFSParser.download_gtfs (fun i => if i = 0 then 429 else 200) =
      (⟨2, [300]⟩, Except.ok DlOutcome.downloaded) ∧
    GTFSParser.download_gtfs (fun _ => 500) =
      (⟨1, []⟩, Except.error (FetchErr.fatalHttp 500)) ∧
    GTFSDatabase.download_gtfs (fun _ => 429) =
      (⟨1, []⟩, Except.error (FetchErr.fatalHttp 429)) :=
  ⟨C6_corrected.1 _ (fun _ => rfl),
   C6_corrected.2.1 _ rfl rfl,
   C6_corrected.2.2.1 500 (by decide) (by decide),
   C6_corrected.2.2.2 429 (by decide) (by decide)⟩

/-- C7, counterexample.  The claim says input rows violating referential
integrity are silently excluded during the build.  Building `c7Archive`
succeeds and its single `stop_times` row -- whose `stop_id` and `trip_id`
match no stop and no trip -- is loaded into the store. -/
theorem C7_counterexample :
    buildTables c7Archive = Except.ok c7Store ∧
    ¬ (∀ rec ∈ c7Store.stop_times,
        (∃ s ∈ c7Store.stops, s.stop_id = rec.stop_id) ∧
        (∃ t ∈ c7Store.trips, t.trip_id = rec.trip_id)) :=
  ⟨rfl, by decide⟩

/-- C7, amended.  The build performs no referential check at all: whenever
the build succeeds, every `stop_times` input row is parsed and loaded into
the store as-is, whether or not its stop and trip exist. -/
theorem C7_corrected (ar : Archive) (st : Store) (h : buildTables ar = .ok st) :
    ∀ r ∈ ar.stop_times, ∃ rec, parseStopTimeRow r = Except.ok rec ∧ rec ∈ st.stop_times := by
  unfold buildTables at h
  cases h1 : mapExcept parseStopRow ar.stops with
  | error e => rw [h1] at h; exact absurd h (by simp)
  | ok stops =>
    rw [h1] at h
    cases h2 : mapExcept parseRouteRow ar.routes with
    | error e => rw [h2] at h; exact absurd h (by simp)
    | ok routes =>
      rw [h2] at h
      cases h3 : mapExcept parseStopTimeRow ar.stop_times with
      | error e => rw [h3] at h; exact absurd h (by simp)
      | ok stop_times =>
        rw [h3] at h
        cases h4 : mapExcept parseTripRow ar.trips with
        | error e => rw [h4] at h; exact absurd h (by simp)
        | ok trips =>
          rw [h4] at h
          cases h5 : mapExcept parseCalDateRow ar.calendar_dates with
          | error e => rw [h5] at h; exact absurd h (by simp)
          | ok cds =>
            rw [h5] at h
            injection h with h
            subst h
            intro r hr
            exact mapExcept_mem h3 r hr

/-- C7, witness: the dangling row of `c7Archive` is parsed and present in
the built store. -/
theorem C7_witness :
    ∃ rec, parseStopTimeRow c7Row = Except.ok rec ∧ rec ∈ c7Store.stop_times :=
  C7_corrected c7Archive c7Store rfl c7Row (by decide)

/-- C8, confirmed.  For every stop code that does not resolve -- after
trimming and lower-casing -- to any stored stop's (load-time normalised)
code, `GTFSDatabase.get_scheduled_departures` returns the empty list rather
than failing: the `find?` lookup yields no row and the code returns `[]`. -/
theorem C8_confirmed (s : Store) (code now date : String) (lim : ℕ)
    (h : ∀ st ∈ s.stops, pyLower (pyStrip code) ≠ pyLower (pyStrip st.stop_code)) :
    GTFSDatabase.get_scheduled_departures s code now date lim = [] := by
  unfold GTFSDatabase.get_scheduled_departures
  have hfind : s.stops.find? (fun st => decide (st.stop_code = code)) = none := by
    apply List.find?_eq_none.mpr
    intro st hst
    simp only [decide_eq_true_eq]
    intro heq
    exact h st hst (by rw [heq])
  rw [hfind]

/-- C8, witness: an unknown code against a store holding only code "abc". -/
theorem C8_witness :
    GTFSDatabase.get_scheduled_departures c8Store "XYZ" "12:00:00" "20251012" 10 = [] :=
  C8_confirmed c8Store "XYZ" "12:00:00" "20251012" 10 (by decide)

/-- C9, confirmed.  `GTFSDatabase.get_stats` never fails on an open store:
it always returns statistics whose coverage percentage is
stops-with-schedule divided by total stops times 100, rounded (half to even)
to one decimal place, and zero when the store has no stops; the guarded
division can never raise. -/
theorem C9_confirmed (s : Store) :
    ∃ st : DbStats, GTFSDatabase.get_stats s = Except.ok st ∧
      st.stops_count = s.stops.length ∧
      st.stops_with_schedule = ((s.stop_times.map (fun t => t.stop_id)).dedup).length ∧
      st.total_departures = s.stop_times.length ∧
      st.coverage_percent =
        (if st.stops_count = 0 then 0
         else round1 (((st.stops_with_schedule : ℚ) / (st.stops_count : ℚ)) * 100)) := by
  unfold GTFSDatabase.get_stats
  by_cases h : 0 < s.stops.length
  · rw [if_pos h]
    have hne : ((s.stops.length : ℚ)) ≠ 0 := Nat.cast_ne_zero.mpr (Nat.pos_iff_ne_zero.mp h)
    have hdiv : pyDivQ (((s.stop_times.map (fun st => st.stop_id)).dedup).length : ℚ)
        ((s.stops.length : ℚ)) =
        .ok ((((s.stop_times.map (fun st => st.stop_id)).dedup).length : ℚ) /
          ((s.stops.length : ℚ))) := by
      unfold pyDivQ
      rw [if_neg hne]
    rw [hdiv]
    refine ⟨_, rfl, rfl, rfl, rfl, ?_⟩
    rw [if_neg (Nat.pos_iff_ne_zero.mp h)]
  · rw [if_neg h]
    refine ⟨_, rfl, rfl, rfl, rfl, ?_⟩
    rw [if_pos (Nat.eq_zero_of_not_pos h)]

/-- C2, confirmed.  Every DepartureRecord returned by
`GTFSDatabase.get_scheduled_departures` (the departures operation serving
the application) has a departure time that compares greater than or equal
to the query time `now`, and arises from a join row whose trip's service has
a calendar-date exception of type 1 ("added") for the current service
date. -/
theorem C2_confirmed (s : Store) (code now date : String) (lim : ℕ) :
    List.Forall (fun rec =>
      leStr now rec.departure_time = true ∧
      ∃ st ∈ s.stop_times, ∃ t ∈ s.trips, ∃ cd ∈ s.calendar_dates,
        st.trip_id = t.trip_id ∧ t.service_id = cd.service_id ∧ cd.date = date ∧
        cd.exception_type = 1 ∧ rec.departure_time = st.departure_time)
      (GTFSDatabase.get_scheduled_departures s code now date lim) := by
  rw [List.forall_iff_forall_mem]
  intro rec hrec
  unfold GTFSDatabase.get_scheduled_departures at hrec
  cases hfind : s.stops.find? (fun st => decide (st.stop_code = code)) with
  | none =>
    simp only [hfind] at hrec
    exact absurd hrec (List.not_mem_nil rec)
  | some stop =>
    simp only [hfind, List.mem_map] at hrec
    obtain ⟨row, hrow, hrec_eq⟩ := hrec
    subst hrec_eq
    have hrow3 : row ∈ sqlDepartureRows s stop.stop_id now date :=
      List.mem_dedup.mp (mem_sortStable.mp (List.take_subset _ _ hrow))
    unfold sqlDepartureRows at hrow3
    simp only [List.mem_flatMap, List.mem_filterMap] at hrow3
    obtain ⟨st, hst, t, ht, r, hr, cd, hcd, hif⟩ := hrow3
    split at hif
    next hP =>
      obtain ⟨h1, h2, h3, h4, h5, h6, h7⟩ := hP
      injection hif with hif
      subst hif
      exact ⟨h5, st, hst, t, ht, cd, hcd, h1, h3, h6, h7, rfl⟩
    next => exact absurd hif (by simp)

/-- C3, counterexample.  The claim says that in the text stop-search every
name starting with the query precedes every name that merely contains it.
The search the application serves is `GTFSDatabase.search_stops`, which
orders purely alphabetically: for the store with stops "ab" and "ba" and
query "b", the result places "ab" (contains only) before "ba" (starts
with), violating the claimed precedence. -/
theorem C3_counterexample :
    ¬ List.Pairwise (fun a b =>
        startsWithPy (pyLower b.stop_name) (pyLower "b") = true →
          startsWithPy (pyLower a.stop_name) (pyLower "b") = true)
      (GTFSDatabase.search_stops c3Store "b" 20) := by decide

/-- C3, amended.  The in-memory `GTFSParser.search_stops` does implement
the claimed ranking: every returned stop's name contains the query
case-insensitively, results are sorted by the key (starts-with first, then
alphabetical by name), and in particular every starts-with result precedes
every merely-containing one.  `GTFSDatabase.search_stops` -- the variant
`app.py` serves -- orders purely alphabetically (no prefix precedence) and
filters by SQL `LIKE` against the pattern `%query%` with the user query
unescaped: every returned name matches that pattern, which coincides with
case-insensitive substring containment exactly when the query contains no
LIKE wildcard character (`%` or `_`); a wildcard query can match names not
containing it. -/
theorem C3_corrected {α : Type} (stops : List (String × PStop α)) (keys : List String)
    (s : Store) (query : String) (lim : ℕ) :
    (List.Forall (fun r => containsPy (pyLower r.stop_name) (pyLower query) = true)
      (GTFSParser.search_stops stops keys query lim)) ∧
    List.Pairwise (fun a b =>
        pyRank (pyLower query) a.stop_name < pyRank (pyLower query) b.stop_name ∨
          (pyRank (pyLower query) a.stop_name = pyRank (pyLower query) b.stop_name ∧
            leStr a.stop_name b.stop_name = true))
      (GTFSParser.search_stops stops keys query lim) ∧
    List.Pairwise (fun a b =>
        startsWithPy (pyLower b.stop_name) (pyLower query) = true →
          startsWithPy (pyLower a.stop_name) (pyLower query) = true)
      (GTFSParser.search_stops stops keys query lim) ∧
    (List.Forall (fun r => likeMatch (sqlLikePattern query) (pyLower r.stop_name).data = true)
      (GTFSDatabase.search_stops s query lim)) ∧
    (noWildcard (pyLower query).data = true →
      List.Forall (fun r => hasSubCI (pyLower r.stop_name).data (pyLower query).data = true)
        (GTFSDatabase.search_stops s query lim)) ∧
    List.Pairwise (fun a b => leStr a.stop_name b.stop_name = true)
      (GTFSDatabase.search_stops s query lim) := by
  have hrank : List.Pairwise (fun a b : SearchResult α =>
      pyRank (pyLower query) a.stop_name < pyRank (pyLower query) b.stop_name ∨
        (pyRank (pyLower query) a.stop_name = pyRank (pyLower query) b.stop_name ∧
          leStr a.stop_name b.stop_name = true))
      (GTFSParser.search_stops stops keys query lim) := by
    unfold GTFSParser.search_stops
    have h1 := pairwise_sortStable
      (fun a b c h1 h2 => searchLe_trans (pyLower query) a b c h1 h2)
      (fun a b => searchLe_total (pyLower query) a b)
      (((stops.filter
          (fun p => containsPy (pyLower p.2.stop_name) (pyLower query))).take lim).map
        (fun p => ⟨p.1, p.2.stop_name, p.2.lat, p.2.lon, keys.contains p.1⟩))
    exact h1.imp (fun h => (searchLe_iff (pyLower query) _ _).mp h)
  have hdb : List.Forall
      (fun r => likeMatch (sqlLikePattern query) (pyLower r.stop_name).data = true)
      (GTFSDatabase.search_stops s query lim) := by
    rw [List.forall_iff_forall_mem]
    intro r hr
    unfold GTFSDatabase.search_stops at hr
    rw [List.mem_map] at hr
    obtain ⟨st, hst, heq⟩ := hr
    subst heq
    exact (List.mem_filter.mp (mem_sortStable.mp (List.take_subset _ _ hst))).2
  refine ⟨?_, hrank, ?_, hdb, ?_, ?_⟩
  · rw [List.forall_iff_forall_mem]
    intro r hr
    unfold GTFSParser.search_stops at hr
    rw [mem_sortStable, List.mem_map] at hr
    obtain ⟨p, hp, heq⟩ := hr
    subst heq
    exact (List.mem_filter.mp (List.take_subset _ _ hp)).2
  · refine hrank.imp ?_
    intro a b hab hbs
    rcases hab with hlt | ⟨heqr, _⟩
    · exfalso
      have hb0 : pyRank (pyLower query) b.stop_name = 0 := by
        unfold pyRank
        rw [if_pos hbs]
      omega
    · unfold pyRank at heqr
      by_cases ha : startsWithPy (pyLower a.stop_name) (pyLower query) = true
      · exact ha
      · rw [if_neg ha, if_pos hbs] at heqr
        exact absurd heqr (by omega)
  · intro hw
    rw [List.forall_iff_forall_mem]
    intro r hr
    have hlike := (List.forall_iff_forall_mem.mp hdb) r hr
    rw [← likeContains ((pyLower query).data) ((pyLower r.stop_name).data) hw]
    exact hlike
  · unfold GTFSDatabase.search_stops
    have htransS : ∀ a b c : StopRec,
        leStr a.stop_name b.stop_name = true → leStr b.stop_name c.stop_name = true →
        leStr a.stop_name c.stop_name = true := fun _ _ _ h1 h2 => leStr_trans h1 h2
    have htotS : ∀ a b : StopRec,
        leStr a.stop_name b.stop_name = true ∨ leStr b.stop_name a.stop_name = true :=
      fun a b => leStr_total a.stop_name b.stop_name
    have h1 := pairwise_sortStable htransS htotS
      (s.stops.filter (fun st => likeMatch (sqlLikePattern query) (pyLower st.stop_name).data))
    have h2 := List.Pairwise.sublist (List.take_sublist lim _) h1
    exact List.pairwise_map.mpr (h2.imp (fun h => h))

/-- C3, witness for the amended theorem's conditional conjunct: the
wildcard-free query "b" against the two-stop store, where both returned
names contain the query. -/
theorem C3_witness :
    List.Forall (fun r => hasSubCI (pyLower r.stop_name).data (pyLower "b").data = true)
      (GTFSDatabase.search_stops c3Store "b" 20) :=
  (C3_corrected ([] : List (String × PStop ℚ)) [] c3Store "b" 20).2.2.2.2.1 (by decide)

/-- C4, confirmed.  `GTFSDatabase` -- the store class `app.py`
instantiates -- defines no `find_nearby_stops` method, while the
`/api/stops/nearby` route is offered and `GTFSParser` does define it; hence
for every valid input the nearby-stops handler's call raises an attribute
error that the blanket exception handler turns into the HTTP 500 "Nearby
search failed" response. -/
theorem C4_confirmed (s : Store) (pstops : List (String × PStop ℝ)) (keys : List String)
    (lat lon : ℚ) (radius lim : ℤ) :
    ("find_nearby_stops" ∉ GTFSDatabase.methodNames ∧
      "find_nearby_stops" ∈ GTFSParser.methodNames ∧
      "/api/stops/nearby" ∈ appRoutes) ∧
    (GTFSDatabase.ops s).find_nearby_stops = none ∧
    ((GTFSParser.ops pstops keys).find_nearby_stops).isSome = true ∧
    ((-90 ≤ lat ∧ lat ≤ 90) → (-180 ≤ lon ∧ lon ≤ 180) →
      (100 ≤ radius ∧ radius ≤ 10000) → (1 ≤ lim ∧ lim ≤ 100) →
      nearbyStops (GTFSDatabase.ops s) lat lon radius lim =
        NearbyOut.err500 "Nearby search failed") := by
  refine ⟨⟨by decide, by decide, by decide⟩, rfl, rfl, ?_⟩
  intro h1 h2 h3 h4
  unfold nearbyStops
  rw [if_neg (not_not_intro h1), if_neg (not_not_intro h2), if_neg (not_not_intro h3),
    if_neg (not_not_intro h4)]
  rfl

/-- C4, witness at a concrete valid request. -/
theorem C4_witness :
    nearbyStops (GTFSDatabase.ops c4Store) 52 4 1000 10 =
      NearbyOut.err500 "Nearby search failed" :=
  (C4_confirmed c4Store [] [] 52 4 1000 10).2.2.2 (by decide) (by decide) (by decide)
    (by decide)

/-- C5, confirmed.  `GTFSParser.find_nearby_stops` returns only stops whose
full-precision haversine distance from the query point is at most the
radius (the payload `distance_meters` being that distance rounded to the
nearest meter), the result sequence is non-decreasing in its distance
field, and its length never exceeds the limit. -/
theorem C5_confirmed (stops : List (String × PStop ℝ)) (keys : List String)
    (lat lon : ℝ) (radius : ℤ) (lim : ℕ) :
    (List.Forall (fun r =>
        calculate_distance lat lon r.lat r.lon ≤ (radius : ℝ) ∧
        r.distance_meters = pyRoundR (calculate_distance lat lon r.lat r.lon))
      (GTFSParser.find_nearby_stops stops keys lat lon radius lim)) ∧
    List.Pairwise (fun a b => a.distance_meters ≤ b.distance_meters)
      (GTFSParser.find_nearby_stops stops keys lat lon radius lim) ∧
    (GTFSParser.find_nearby_stops stops keys lat lon radius lim).length ≤ lim := by
  refine ⟨?_, ?_, ?_⟩
  · rw [List.forall_iff_forall_mem]
    intro r hr
    unfold GTFSParser.find_nearby_stops at hr
    have hr2 := mem_sortStable.mp (List.take_subset _ _ hr)
    rw [List.mem_filterMap] at hr2
    obtain ⟨p, hp, hif⟩ := hr2
    split at hif
    next hd =>
      injection hif with hif
      subst hif
      exact ⟨hd, rfl⟩
    next => exact absurd hif (by simp)
  · unfold GTFSParser.find_nearby_stops
    have htrans : ∀ a b c : NearbyRec ℝ,
        decide (a.distance_meters ≤ b.distance_meters) = true →
        decide (b.distance_meters ≤ c.distance_meters) = true →
        decide (a.distance_meters ≤ c.distance_meters) = true := by
      intro a b c hab hbc
      simp only [decide_eq_true_eq] at hab hbc ⊢
      exact le_trans hab hbc
    have htot : ∀ a b : NearbyRec ℝ,
        decide (a.distance_meters ≤ b.distance_meters) = true ∨
        decide (b.distance_meters ≤ a.distance_meters) = true := by
      intro a b
      simp only [decide_eq_true_eq]
      exact le_total _ _
    have h1 := pairwise_sortStable htrans htot
      (stops.filterMap (fun p =>
        if calculate_distance lat lon p.2.lat p.2.lon ≤ (radius : ℝ) then
          some ⟨p.1, p.2.stop_name, p.2.lat, p.2.lon,
                pyRoundR (calculate_distance lat lon p.2.lat p.2.lon),
                keys.contains p.1⟩
        else none))
    have h2 := List.Pairwise.sublist (List.take_sublist lim _) h1
    exact h2.imp (fun h => of_decide_eq_true h)
  · unfold GTFSParser.find_nearby_stops
    rw [List.length_take]
    exact min_le_left _ _

/-- C10, confirmed.  The haversine distance `_calculate_distance` is zero
on identical coordinates and symmetric in its two coordinate pairs. -/
theorem C10_confirmed (lat1 lon1 lat2 lon2 : ℝ) :
    calculate_distance lat1 lon1 lat1 lon1 = 0 ∧
    calculate_distance lat1 lon1 lat2 lon2 = calculate_distance lat2 lon2 lat1 lon1 := by
  have hsym : haversineA lat1 lon1 lat2 lon2 = haversineA lat2 lon2 lat1 lon1 := by
    unfold haversineA
    have h1 : radians (lat1 - lat2) = -(radians (lat2 - lat1)) := by
      unfold radians
      ring
    have h2 : radians (lon1 - lon2) = -(radians (lon2 - lon1)) := by
      unfold radians
      ring
    rw [h1, h2, neg_div, Real.sin_neg, neg_div, Real.sin_neg]
    ring
  constructor
  · unfold calculate_distance
    have h0 : haversineA lat1 lon1 lat1 lon1 = 0 := by
      unfold haversineA
      simp [radians]
    rw [h0]
    simp [atan2R, Real.sqrt_zero, Real.sqrt_one, Real.arctan_zero]
  · unfold calculate_distance
    rw [hsym]

end NextRide
